import Mathlib

/-!
Verification of the slidestyler core pipeline: a shallow embedding of the
PPTX container reader (`backend/services/pptx_parser.py`), the rule-based
design intelligence (`backend/services/ai_analyzer.py`, class
`DesignIntelligence`) and the binary exporter's content extraction and
layout dispatch (`backend/services/pptx_exporter.py`, class
`WorldClassExporter`), together with theorems settling the frozen claims
about them.

Modelling conventions:
* Python strings are Lean `String`s; every Python string operation used by
  the code (`lower`, `strip`, `join`, substring `in`, `isdigit`,
  `startswith`/`endswith`, the `slide(\d+)\.xml` regex search) is
  re-implemented below over `List Char` so that all definitions reduce in
  the kernel.
* XML trees are modelled by records holding exactly the parts the source
  reads (placeholder tag, text runs per paragraph, graphic-frame / table
  presence, picture relationship ids, slide-size attributes).
* A file that `xml.etree.ElementTree.parse` would reject is modelled as
  `none`; the raised exception becomes `Except.error .xmlParseError`.
  An archive that `zipfile.ZipFile` rejects is `isZip = false`, and the
  raised `BadZipFile` becomes `Except.error .badZip`.
* Python floats (slide width/height, EMU conversions) are modelled as `ℚ`;
  no claim depends on float rounding.
* Theme-color and media extraction (`_parse_theme`, `_extract_media`) and
  the per-run formatting snapshot are not referenced by any claim and are
  omitted from the embedding.
-/

namespace SlideStyler

/-! ### Python string primitives -/

/-- ASCII lower-casing of one character, as Python `str.lower` does for the
ASCII range (all texts in the claims are ASCII). -/
def chLower (c : Char) : Char :=
  if 'A' ≤ c ∧ c ≤ 'Z' then Char.ofNat (c.toNat + 32) else c

/-- Python `s.lower()`. -/
def pyLower (s : String) : String := ⟨s.data.map chLower⟩

/-- Drop whitespace from both ends of a character list. -/
def listTrim (l : List Char) : List Char :=
  ((l.dropWhile Char.isWhitespace).reverse.dropWhile Char.isWhitespace).reverse

/-- Python `s.strip()`. -/
def pyStrip (s : String) : String := ⟨listTrim s.data⟩

/-- Does `needle` occur as a contiguous sublist of `hay`? -/
def listContains (hay needle : List Char) : Bool :=
  match hay with
  | [] => needle.isEmpty
  | _ :: t => needle.isPrefixOf hay || listContains t needle

/-- Python `needle in hay` on strings (substring containment). -/
def pyContains (hay needle : String) : Bool := listContains hay.data needle.data

/-- Python `sep.join(parts)`. -/
def pyJoin (sep : String) : List String → String
  | [] => ""
  | [x] => x
  | x :: rest => x ++ sep ++ pyJoin sep rest

/-- Python `s.isdigit()` for the ASCII range: false on the empty string,
else true iff every character is a decimal digit. -/
def pyIsdigit (s : String) : Bool := !s.data.isEmpty && s.data.all Char.isDigit

/-- Python truthiness of an optional string: `None` and `""` are falsy. -/
def pyTruthy (s : Option String) : Bool :=
  match s with
  | none => false
  | some t => t != ""

/-! ### Data model of the slide XML the parser reads -/

/-- One `a:p` paragraph element: the texts of its `a:r` runs, of its direct
`a:t` children, and of its `a:fld` field elements. A run whose `a:t` has no
text (`t.text` falsy in Python) is modelled by `""`. -/
structure ParagraphXML where
  runTexts : List String := []
  directTexts : List String := []
  fieldTexts : List String := []
  deriving DecidableEq, Repr

/-- One `p:sp` shape element. `ph = some a` models a present
`p:nvSpPr/p:nvPr/p:ph` element whose `type` attribute is `a` (`none` when
the attribute is absent). `txBody` models the optional `p:txBody`. -/
structure ShapeXML where
  ph : Option (Option String) := none
  txBody : Option (List ParagraphXML) := none
  deriving DecidableEq, Repr

/-- One `p:pic` element: the `r:embed` relationship id of its blip fill,
when resolvable. -/
structure PicXML where
  relId : Option String := none
  deriving DecidableEq, Repr

/-- One parsed slide part. `hasGraphicFrame` models presence of a
`p:graphicFrame` under the shape tree; `hasTbl` presence of an `a:tbl`
anywhere under the root. -/
structure SlideXML where
  hasSpTree : Bool := true
  shapes : List ShapeXML := []
  hasGraphicFrame : Bool := false
  hasTbl : Bool := false
  pics : List PicXML := []
  deriving DecidableEq, Repr

/-- `shape_data` dict built by `PPTXParser._parse_shape` (position and the
formatting snapshot are omitted: no claim reads them). `text_paragraphs`
is `some _` exactly when the shape had a `txBody`, matching the key being
set conditionally in the source. -/
structure ShapeData where
  type : String := "shape"
  text : String := ""
  text_paragraphs : Option (List String) := none
  placeholder_type : Option String := none
  deriving DecidableEq, Repr

/-- One entry of `slide_data['text_content']`. -/
structure TextItem where
  type : String
  text : String
  deriving DecidableEq, Repr

/-- One entry of `slide_data['images']`. -/
structure ImageData where
  rel_id : String
  deriving DecidableEq, Repr

/-- `slide_data` dict built by `PPTXParser._parse_single_slide`;
`slide_number` and `filename` are added afterwards by `_parse_slides`. -/
structure SlideData where
  shapes : List ShapeData := []
  text_content : List TextItem := []
  images : List ImageData := []
  has_chart : Bool := false
  has_table : Bool := false
  layout_type : String := "unknown"
  slide_number : Nat := 0
  filename : String := ""
  deriving DecidableEq, Repr

/-! ### Content Extractor (`pptx_parser.py`) -/

/-- `PPTXParser._extract_paragraph_text`: concatenate, separated by single
spaces, the truthy texts of the paragraph's runs, then its direct `a:t`
children, then its field elements. -/
def extractParagraphText (p : ParagraphXML) : String :=
  pyJoin " " ((p.runTexts.filter (fun t => t != "")) ++
    (p.directTexts.filter (fun t => t != "")) ++
    (p.fieldTexts.filter (fun t => t != "")))

/-- `PPTXParser._parse_shape`: placeholder type from the `p:ph` element
(attribute defaulting to `"body"` when the element is present without a
`type`); paragraphs are the truthy per-paragraph texts, joined with
newlines for the `text` field. The shape is discarded (`None`) unless its
text or its placeholder type is truthy. -/
def parseShape (s : ShapeXML) : Option ShapeData :=
  let placeholder_type : Option String := s.ph.map (fun attr => attr.getD "body")
  let (text, text_paragraphs) :=
    match s.txBody with
    | some ps =>
      let paragraphs := (ps.map extractParagraphText).filter (fun t => t != "")
      (pyJoin "\n" paragraphs, some paragraphs)
    | none => (("" : String), (none : Option (List String)))
  if text != "" || pyTruthy placeholder_type then
    some { type := "shape", text := text, text_paragraphs := text_paragraphs,
           placeholder_type := placeholder_type }
  else
    none

/-- The `text_content` items one parsed shape contributes in
`PPTXParser._parse_single_slide`: title-like placeholders keep their full
text as one item; any other shape is split into one item per non-empty
stripped paragraph. -/
def shapeTextItems (sd : ShapeData) : List TextItem :=
  if sd.text != "" then
    let placeholder_type :=
      match sd.placeholder_type with
      | some t => if t != "" then t else "body"
      | none => "body"
    if placeholder_type = "title" ∨ placeholder_type = "ctrTitle" ∨
        placeholder_type = "subTitle" then
      [{ type := placeholder_type, text := sd.text }]
    else
      (sd.text_paragraphs.getD [sd.text]).filterMap (fun para =>
        let para := pyStrip para
        if para != "" then some ({ type := placeholder_type, text := para } : TextItem)
        else none)
  else
    []

/-- `PPTXParser._parse_image`: keep the picture only if its relationship
id was resolvable (truthy). -/
def parseImage (pic : PicXML) : Option ImageData :=
  match pic.relId with
  | some e => if e != "" then some { rel_id := e } else none
  | none => none

/-- `PPTXParser._determine_layout_type`. -/
def determineLayoutType (sd : SlideData) : String :=
  let placeholders := sd.shapes.map (·.placeholder_type)
  if some "ctrTitle" ∈ placeholders ∨ some "subTitle" ∈ placeholders then "title"
  else if sd.has_chart then "chart"
  else if sd.has_table then "table"
  else if sd.images.length > 0 then "image"
  else if some "title" ∈ placeholders ∧ some "body" ∈ placeholders then "title_content"
  else if sd.text_content.length = 1 then "single_content"
  else "content"

/-- `PPTXParser._parse_single_slide` on an already-parsed XML tree. -/
def parseSingleSlideData (x : SlideXML) : SlideData :=
  if !x.hasSpTree then {}
  else
    let shapes := x.shapes.filterMap parseShape
    let text_content := (shapes.map shapeTextItems).flatten
    let images := x.pics.filterMap parseImage
    let sd : SlideData :=
      { shapes := shapes, text_content := text_content, images := images,
        has_chart := x.hasGraphicFrame, has_table := x.hasTbl }
    { sd with layout_type := determineLayoutType sd }

/-- The two exception classes the parser can let escape: `BadZipFile` from
opening the archive, and `xml.etree.ElementTree.ParseError` from parsing
an XML part. -/
inductive PErr
  | badZip
  | xmlParseError
  deriving DecidableEq, Repr

/-- `ET.parse` of one slide part followed by `_parse_single_slide`:
a malformed part raises. -/
def parseSingleSlide (doc : Option SlideXML) : Except PErr SlideData :=
  match doc with
  | none => .error .xmlParseError
  | some x => .ok (parseSingleSlideData x)

/-! ### Slide-part selection and ordering (`PPTXParser._parse_slides`) -/

/-- Value of a digit string, used for the regex capture group. -/
def digitsToNat (ds : List Char) : Nat :=
  ds.foldl (fun a c => 10 * a + (c.toNat - '0'.toNat)) 0

/-- Try to match the regex `slide(\d+)\.xml` at the head of `l`, returning
the captured integer (the digit run is maximal, as backtracking cannot
give up a digit to the literal dot that follows). -/
def matchSlideNumAt (l : List Char) : Option Nat :=
  if "slide".data.isPrefixOf l then
    let rest := l.drop 5
    let ds := rest.takeWhile Char.isDigit
    if ds.isEmpty then none
    else if ".xml".data.isPrefixOf (rest.drop ds.length) then some (digitsToNat ds)
    else none
  else none

/-- `re.search(r'slide(\d+)\.xml', f)`: leftmost match. -/
def searchSlideNum : List Char → Option Nat
  | [] => none
  | l@(_ :: t) =>
    match matchSlideNumAt l with
    | some n => some n
    | none => searchSlideNum t

/-- The `(int(match.group(1)), f)` pairs collected by `_parse_slides` for
files that start with `slide`, end with `.xml` and match the regex. -/
def slideFiles (listing : List String) : List (Nat × String) :=
  listing.filterMap fun f =>
    if "slide".data.isPrefixOf f.data && ".xml".data.isSuffixOf f.data then
      (searchSlideNum f.data).map (fun n => (n, f))
    else none

/-- Key order of `slide_files.sort(key=lambda x: x[0])`. -/
def slideKeyLE (a b : Nat × String) : Prop := a.1 ≤ b.1

instance : DecidableRel slideKeyLE := fun a b => Nat.decLe a.1 b.1

instance : IsTotal (Nat × String) slideKeyLE := ⟨fun a b => Nat.le_total a.1 b.1⟩

instance : IsTrans (Nat × String) slideKeyLE :=
  ⟨fun _ _ _ hab hbc => Nat.le_trans hab hbc⟩

/-- The stable sort by embedded integer index (Python `list.sort` is
stable; so is insertion sort). -/
def sortedSlideFiles (listing : List String) : List (Nat × String) :=
  List.insertionSort slideKeyLE (slideFiles listing)

/-- The `ppt/slides` directory: the file names `os.listdir` returns, and
each file's content (`none` models a file `ET.parse` rejects). -/
structure SlidesDir where
  listing : List String
  content : String → Option SlideXML

/-- The `for idx, (num, filename) in enumerate(slide_files)` loop: parse
each selected part in sorted order, stamping `slide_number = idx + 1` and
the filename. An XML error in any part escapes the loop. -/
def parseSortedSlides (d : SlidesDir) : List (Nat × String) → Nat → Except PErr (List SlideData)
  | [], _ => .ok []
  | (_, filename) :: rest, idx =>
    match parseSingleSlide (d.content filename) with
    | .error e => .error e
    | .ok sd =>
      match parseSortedSlides d rest (idx + 1) with
      | .error e => .error e
      | .ok tail =>
        .ok ({ sd with slide_number := idx + 1, filename := filename } :: tail)

/-- `PPTXParser._parse_slides`: missing slides directory means no slides
(early return); otherwise select, sort and parse the slide parts. -/
def parseSlides (dir : Option SlidesDir) : Except PErr (List SlideData) :=
  match dir with
  | none => .ok []
  | some d => parseSortedSlides d (sortedSlideFiles d.listing) 0

/-! ### Presentation metadata and top-level parse (`PPTXParser.parse`) -/

/-- The `p:sldSz` element's `cx`/`cy` attributes (absent attributes fall
back to `9144000`/`6858000` in the source). -/
structure SldSz where
  cx : Option Int := none
  cy : Option Int := none
  deriving DecidableEq, Repr

/-- The parts of `ppt/presentation.xml` the parser reads. -/
structure PresXml where
  sldSz : Option SldSz := none
  sldIdCount : Option Nat := none
  deriving DecidableEq, Repr

/-- The `metadata` dict: fields only set when the corresponding element
exists. -/
structure Metadata where
  width : Option ℚ := none
  height : Option ℚ := none
  aspect_ratio : Option String := none
  slide_count : Option Nat := none
  deriving DecidableEq, Repr

/-- The metadata computed from a parsed `presentation.xml` tree: EMU to
96-DPI pixels via 914400 EMU per inch, and the 16:9-within-0.1 aspect
test. -/
def metadataOf (t : PresXml) : Metadata :=
  let m1 : Metadata :=
    match t.sldSz with
    | some sz =>
      let cx : Int := sz.cx.getD 9144000
      let cy : Int := sz.cy.getD 6858000
      { width := some ((cx : ℚ) / 914400 * 96), height := some ((cy : ℚ) / 914400 * 96),
        aspect_ratio := some (if |(cx : ℚ) / (cy : ℚ) - 16 / 9| < (1 : ℚ) / 10
          then "16:9" else "4:3") }
    | none => {}
  match t.sldIdCount with
  | some n => { m1 with slide_count := some n }
  | none => m1

/-- `PPTXParser._parse_presentation_metadata`: an absent
`ppt/presentation.xml` is tolerated with an early return (empty metadata);
a malformed one raises out of `ET.parse`. -/
def parsePresentationMetadata (p : Option (Option PresXml)) : Except PErr Metadata :=
  match p with
  | none => .ok {}
  | some none => .error .xmlParseError
  | some (some t) => .ok (metadataOf t)

/-- The uploaded archive as the parser sees it: zip validity, the optional
(possibly malformed) presentation manifest, and the optional slides
directory. -/
structure Archive where
  isZip : Bool := true
  presentationXml : Option (Option PresXml) := none
  slidesDir : Option SlidesDir := none

/-- The dict `PPTXParser.parse` returns (theme colors and media omitted,
see the header note). -/
structure ParseResult where
  metadata : Metadata
  slides : List SlideData
  slide_count : Nat
  deriving DecidableEq, Repr

/-- `PPTXParser.parse`: open the zip (raising `BadZipFile` on an invalid
archive), then metadata, then slides; the `try/finally` in the source only
cleans up temp files, so every exception propagates to the caller. -/
def parse (a : Archive) : Except PErr ParseResult :=
  if !a.isZip then .error .badZip
  else
    match parsePresentationMetadata a.presentationXml with
    | .error e => .error e
    | .ok metadata =>
      match parseSlides a.slidesDir with
      | .error e => .error e
      | .ok slides => .ok { metadata := metadata, slides := slides, slide_count := slides.length }

/-! ### Content Classifier (`DesignIntelligence.analyze_content_type`) -/

/-- `DesignIntelligence.analyze_content_type`: the ordered decision
sequence, first match wins. -/
def analyzeContentType (sd : SlideData) : String :=
  let text_content := sd.text_content
  if text_content.isEmpty then
    if !sd.images.isEmpty then "image_focused" else "empty"
  else if text_content.length ≤ 2 ∧
      ("ctrTitle" ∈ text_content.map (·.type) ∨ "subTitle" ∈ text_content.map (·.type))
  then "title_slide"
  else if sd.has_chart || sd.has_table then "data_presentation"
  else
    let all_text := pyLower (pyJoin " " (text_content.map (·.text)))
    if ["step", "process", "phase", "stage"].any (fun w => pyContains all_text w) then
      "process"
    else if ["compare", "versus", "vs", "difference"].any (fun w => pyContains all_text w) then
      "comparison"
    else if ["timeline", "history", "roadmap"].any (fun w => pyContains all_text w) then
      "timeline"
    else if ["question", "?", "faq"].any (fun w => pyContains all_text w) then
      "qa"
    else if ["thank", "contact", "questions?"].any (fun w => pyContains all_text w) then
      "closing"
    else
      let bullet_count := (text_content.filter (fun t => t.type = "body")).length
      if bullet_count > 4 then "detailed_content" else "standard_content"

/-! ### Layout Planner (`DesignIntelligence.get_layout_recommendation`,
`DesignIntelligence.calculate_font_sizes`) -/

/-- A `columns` value in a layout entry: a number or the string `"auto"`. -/
inductive Columns
  | num (n : Nat)
  | auto
  deriving DecidableEq, Repr

/-- One entry of the `layouts` table; keys absent from an entry are
`none`. -/
structure LayoutRec where
  type : String
  title_position : String
  columns : Option Columns := none
  vertical_balance : Option String := none
  chart_position : Option String := none
  element_style : Option String := none
  visual_separator : Option Bool := none
  flow_direction : Option String := none
  emphasis : Option String := none
  body_layout : Option String := none
  deriving DecidableEq, Repr

/-- `DesignIntelligence.get_layout_recommendation`: fixed lookup table,
unknown content types fall through to the `standard_content` entry, whose
`body_layout` branches on the element count. -/
def getLayoutRecommendation (content_type : String) (element_count : Nat) : LayoutRec :=
  if content_type = "title_slide" then
    { type := "centered", title_position := "center", columns := some (.num 1),
      vertical_balance := some "center" }
  else if content_type = "data_presentation" then
    { type := "split", title_position := "top", columns := some (.num 2),
      chart_position := some "right" }
  else if content_type = "process" then
    { type := "horizontal_flow", title_position := "top", columns := some .auto,
      element_style := some "connected" }
  else if content_type = "comparison" then
    { type := "side_by_side", title_position := "top", columns := some (.num 2),
      visual_separator := some true }
  else if content_type = "timeline" then
    { type := "horizontal_timeline", title_position := "top",
      flow_direction := some "left_to_right" }
  else if content_type = "closing" then
    { type := "centered", title_position := "center", columns := some (.num 1),
      emphasis := some "high" }
  else if content_type = "detailed_content" then
    { type := "two_column_content", title_position := "top", columns := some (.num 2),
      body_layout := some "split_bullets" }
  else
    { type := "title_body", title_position := "top", columns := some (.num 1),
      body_layout := some (if element_count > 2 then "bullets" else "paragraphs") }

/-- The `{title, subtitle, body, caption}` size table, in points. -/
structure FontSizes where
  title : Nat
  subtitle : Nat
  body : Nat
  caption : Nat
  deriving DecidableEq, Repr

/-- `DesignIntelligence.calculate_font_sizes`: four bands by total
character count; the width/height parameters are accepted but unused in
the source. -/
def calculateFontSizes (text_content : List TextItem) (slide_width slide_height : ℚ) :
    FontSizes :=
  let total_text_length := (text_content.map (fun t => t.text.length)).sum
  if total_text_length < 100 then { title := 44, subtitle := 24, body := 20, caption := 14 }
  else if total_text_length < 300 then { title := 40, subtitle := 22, body := 18, caption := 12 }
  else if total_text_length < 500 then { title := 36, subtitle := 20, body := 16, caption := 11 }
  else { title := 32, subtitle := 18, body := 14, caption := 10 }

/-! ### Exporter (`WorldClassExporter`) -/

/-- One entry of a slide's `original_content` list: a bare string or a
dict with optional `type` (defaulting to `"body"`) and `text`. -/
inductive ContentItem
  | str (s : String)
  | obj (type : Option String) (text : String)
  deriving DecidableEq, Repr

/-- The skip list of `WorldClassExporter._extract_content`. -/
def skip_types : List String := ["sldNum", "ftr", "dt", "hdr"]

/-- The title-type list of `WorldClassExporter._extract_content`. -/
def title_types : List String := ["title", "ctrTitle", "TITLE", "CENTER_TITLE"]

/-- The subtitle-type list of `WorldClassExporter._extract_content`. -/
def subtitle_types : List String := ["subTitle", "SUBTITLE", "subtitle"]

/-- The `(title, subtitle, body_texts)` triple
`WorldClassExporter._extract_content` returns. -/
structure ExtractedContent where
  title : String
  subtitle : String
  body_texts : List String
  deriving DecidableEq, Repr

/-- The item loop of `WorldClassExporter._extract_content`, threading the
`title`/`subtitle`/`body_texts` accumulators. -/
def extractContentLoop : List ContentItem → String → String → List String → ExtractedContent
  | [], title, subtitle, body_texts =>
    { title := title, subtitle := subtitle, body_texts := body_texts }
  | item :: rest, title, subtitle, body_texts =>
    let (item_type, text) :=
      match item with
      | .str s => (("body" : String), pyStrip s)
      | .obj t s => (t.getD "body", pyStrip s)
    if text = "" ∨ item_type ∈ skip_types then
      extractContentLoop rest title subtitle body_texts
    else if pyIsdigit text = true ∧ text.length ≤ 3 then
      extractContentLoop rest title subtitle body_texts
    else if item_type ∈ title_types ∧ title = "" then
      extractContentLoop rest text subtitle body_texts
    else if item_type ∈ subtitle_types then
      extractContentLoop rest title text body_texts
    else
      extractContentLoop rest title subtitle (body_texts ++ [text])

/-- `WorldClassExporter._extract_content`: run the loop, then promote the
first body text to title if no title was found. -/
def extractContent (original_content : List ContentItem) : ExtractedContent :=
  let ec := extractContentLoop original_content "" "" []
  if ec.title = "" ∧ ec.body_texts ≠ [] then
    { title := ec.body_texts.headI, subtitle := ec.subtitle,
      body_texts := ec.body_texts.tail }
  else ec

/-- Characters the stat regex accepts right after a digit run. -/
def statCurrency (c : Char) : Bool := c = '%' || c = '$' || c = '€' || c = '£'

/-- Python regex word character (`\w`), ASCII range. -/
def wordChar (c : Char) : Bool := c.isAlphanum || c = '_'

/-- Does one of `percent|million|billion|k\b|m\b` match at the head of
`l`? -/
def statKeywordAt (l : List Char) : Bool :=
  "percent".data.isPrefixOf l || "million".data.isPrefixOf l ||
  "billion".data.isPrefixOf l ||
  (match l with
   | 'k' :: rest => rest.head?.all (fun c => !wordChar c)
   | _ => false) ||
  (match l with
   | 'm' :: rest => rest.head?.all (fun c => !wordChar c)
   | _ => false)

/-- After a digit, `\s*` then one of the stat keywords. -/
def statAfterDigit (l : List Char) : Bool :=
  statKeywordAt (l.dropWhile Char.isWhitespace)

/-- Existence of a match of `\d+[%$€£]|\d+\s*(percent|million|billion|k\b|m\b)`
anywhere: equivalently, some digit is followed directly by a currency
symbol, or by optional whitespace and a stat keyword. -/
def looksLikeStatChars : List Char → Bool
  | [] => false
  | c :: rest =>
    (c.isDigit && (rest.head?.any statCurrency || statAfterDigit rest)) ||
    looksLikeStatChars rest

/-- `WorldClassExporter._looks_like_stat`: regex search over the
lower-cased text. -/
def looksLikeStat (text : String) : Bool := looksLikeStatChars (pyLower text).data

/-- The per-slide input of the export loop: the classified `layout_type`
and the `original_content` items. -/
structure ExportSlide where
  layout_type : String := "content"
  original_content : List ContentItem := []
  deriving DecidableEq, Repr

/-- Which drawing routine `_create_world_class_slide` dispatches to. -/
inductive RenderKind
  | heroTitle
  | closingSlide
  | gridContent
  | twoColumnModern
  | statsShowcase
  | elegantContent
  deriving DecidableEq, Repr

/-- The dispatch of `WorldClassExporter._create_world_class_slide`. The
source reads `slide_data['layout_type']` into a local but never consults
it: the choice uses only the index, the slide count and the extracted body
texts. -/
def chooseSlideLayout (slide_data : ExportSlide) (index : Nat) (slide_count : Nat) :
    RenderKind :=
  let _layout_type := slide_data.layout_type
  let ec := extractContent slide_data.original_content
  let body_texts := ec.body_texts
  if index = 0 then .heroTitle
  else if index = slide_count - 1 ∧ slide_count > 2 then .closingSlide
  else if body_texts.length ≥ 6 then .gridContent
  else if body_texts.length ≥ 4 then .twoColumnModern
  else if body_texts.any looksLikeStat then .statsShowcase
  else .elegantContent

/-- The `for i, slide_data in enumerate(self.slides_data)` loop of
`WorldClassExporter.export`, recording each slide's chosen layout. -/
def exportLayouts (slides_data : List ExportSlide) : List RenderKind :=
  slides_data.enum.map (fun p => chooseSlideLayout p.2 p.1 slides_data.length)

/-! ### Concrete fixtures used by witnesses and counterexamples -/

/-- A body-placeholder shape with a single one-run paragraph. -/
def bodyShape (t : String) : ShapeXML :=
  { ph := some (some "body"), txBody := some [{ runTexts := [t] }] }

/-- A slide part with one body shape holding one paragraph. -/
def oneParaSlide (t : String) : SlideXML := { shapes := [bodyShape t] }

/-- A slides directory listing parts 3, 1, 2 out of order, each with
distinct content. -/
def shuffledDir : SlidesDir :=
  { listing := ["slide3.xml", "slide1.xml", "slide2.xml"],
    content := fun f =>
      if f = "slide1.xml" then some (oneParaSlide "one")
      else if f = "slide2.xml" then some (oneParaSlide "two")
      else if f = "slide3.xml" then some (oneParaSlide "three")
      else none }

/-- A slides directory whose second part is malformed XML. -/
def corruptDir : SlidesDir :=
  { listing := ["slide1.xml", "slide2.xml", "slide3.xml"],
    content := fun f => if f = "slide2.xml" then none else some (oneParaSlide f) }

/-- A slides directory with a single well-formed part. -/
def singleGoodDir : SlidesDir :=
  { listing := ["slide1.xml"], content := fun _ => some (oneParaSlide "hello") }

/-- An openable archive with a slide part but no `ppt/presentation.xml`. -/
def noManifestArchive : Archive :=
  { isZip := true, presentationXml := none, slidesDir := some singleGoodDir }

/-- A slide part with four keyword-free body shapes plus a placeholder-free
text box containing only the digit string `"12"` (a slide-number
artifact). -/
def digitSlideXml : SlideXML :=
  { shapes := [bodyShape "alpha", bodyShape "beta", bodyShape "gamma", bodyShape "delta",
               { ph := none, txBody := some [{ runTexts := ["12"] }] }] }

/-- `digitSlideXml` without the digit text box. -/
def noDigitSlideXml : SlideXML :=
  { shapes := [bodyShape "alpha", bodyShape "beta", bodyShape "gamma", bodyShape "delta"] }

/-- The slide record that parsing `singleGoodDir`'s only part yields. -/
def helloParsedSlide : SlideData :=
  { shapes := [{ type := "shape", text := "hello", text_paragraphs := some ["hello"],
                 placeholder_type := some "body" }],
    text_content := [{ type := "body", text := "hello" }],
    layout_type := "single_content", slide_number := 1, filename := "slide1.xml" }

/-- A slide with five keyword-free body items, one containing
`"contact"`. -/
def closingSlideFixture : SlideData :=
  { text_content := [⟨"body", "Get in touch"⟩, ⟨"body", "contact our team"⟩,
      ⟨"body", "email us"⟩, ⟨"body", "call anytime"⟩, ⟨"body", "visit our office"⟩] }

/-! ### C5 -/

/-- C5: `calculate_font_sizes` is independent of its `slide_width` and
`slide_height` arguments — any two width/height pairs give the same size
table — and the result depends only on the total character count of the
`TextItem`s. -/
theorem calculateFontSizes_ignores_dimensions :
    (∀ (text_content : List TextItem) (w1 h1 w2 h2 : ℚ),
      calculateFontSizes text_content w1 h1 = calculateFontSizes text_content w2 h2) ∧
    (∀ (l1 l2 : List TextItem) (w1 h1 w2 h2 : ℚ),
      (l1.map (fun t => t.text.length)).sum = (l2.map (fun t => t.text.length)).sum →
      calculateFontSizes l1 w1 h1 = calculateFontSizes l2 w2 h2) := by
  refine ⟨fun _ _ _ _ _ => rfl, fun l1 l2 w1 h1 w2 h2 h => ?_⟩
  simp only [calculateFontSizes, h]

/-- Witness for C5: two different text lists with equal total character
count (and different dimensions) get the same size table. -/
theorem calculateFontSizes_ignores_dimensions_witness :
    calculateFontSizes [⟨"body", "ab"⟩] 960 540 =
      calculateFontSizes [⟨"title", "a"⟩, ⟨"body", "b"⟩] 1280 720 :=
  calculateFontSizes_ignores_dimensions.2 [⟨"body", "ab"⟩] [⟨"title", "a"⟩, ⟨"body", "b"⟩]
    960 540 1280 720 (by decide)

/-! ### C4 -/

/-- C4: the font-size calculator is monotonically non-increasing in total
text length: when the first list's total character count is strictly
smaller, every selected size (title, subtitle, body, caption) for the
first list is at least the corresponding size for the second. -/
theorem calculateFontSizes_monotone (l1 l2 : List TextItem) (w1 h1 w2 h2 : ℚ)
    (hlt : (l1.map (fun t => t.text.length)).sum < (l2.map (fun t => t.text.length)).sum) :
    (calculateFontSizes l2 w2 h2).title ≤ (calculateFontSizes l1 w1 h1).title ∧
    (calculateFontSizes l2 w2 h2).subtitle ≤ (calculateFontSizes l1 w1 h1).subtitle ∧
    (calculateFontSizes l2 w2 h2).body ≤ (calculateFontSizes l1 w1 h1).body ∧
    (calculateFontSizes l2 w2 h2).caption ≤ (calculateFontSizes l1 w1 h1).caption := by
  simp only [calculateFontSizes]
  split_ifs <;> first | (refine ⟨?_, ?_, ?_, ?_⟩ <;> decide) | (exfalso; omega)

/-- Witness for C4: 2 characters against 450 characters. -/
theorem calculateFontSizes_monotone_witness :
    (calculateFontSizes [⟨"body", "four"⟩] 960 540).title ≤
      (calculateFontSizes [⟨"body", "ab"⟩] 960 540).title ∧
    (calculateFontSizes [⟨"body", "four"⟩] 960 540).subtitle ≤
      (calculateFontSizes [⟨"body", "ab"⟩] 960 540).subtitle ∧
    (calculateFontSizes [⟨"body", "four"⟩] 960 540).body ≤
      (calculateFontSizes [⟨"body", "ab"⟩] 960 540).body ∧
    (calculateFontSizes [⟨"body", "four"⟩] 960 540).caption ≤
      (calculateFontSizes [⟨"body", "ab"⟩] 960 540).caption :=
  calculateFontSizes_monotone [⟨"body", "ab"⟩]
    [⟨"body", "four"⟩] 960 540 960 540 (by decide)

/-! ### C2 -/

/-- C2: a slide with `has_chart` (or `has_table`), at least one
`TextItem`, and not shaped like a title slide (more than 2 items, or no
`ctrTitle`/`subTitle` item) classifies as `"data_presentation"`, whatever
its text says — the structural rule precedes the keyword rules. -/
theorem chart_precedes_keywords (sd : SlideData)
    (hne : sd.text_content ≠ [])
    (hstruct : sd.has_chart = true ∨ sd.has_table = true)
    (hnotitle : 2 < sd.text_content.length ∨
      ("ctrTitle" ∉ sd.text_content.map (·.type) ∧
       "subTitle" ∉ sd.text_content.map (·.type))) :
    analyzeContentType sd = "data_presentation" := by
  dsimp only [analyzeContentType]
  rw [if_neg, if_neg, if_pos]
  · rcases hstruct with h | h <;> simp [h]
  · rintro ⟨hle, hmem⟩
    rcases hnotitle with hgt | ⟨h1, h2⟩
    · omega
    · rcases hmem with h | h
      · exact h1 h
      · exact h2 h
  · simpa using hne

/-- Witness for C2: a charted slide whose body text contains `"process"`
still classifies as `"data_presentation"`. -/
theorem chart_precedes_keywords_witness :
    analyzeContentType
      { text_content := [⟨"title", "Pipeline"⟩, ⟨"body", "our process"⟩, ⟨"body", "data"⟩],
        has_chart := true } = "data_presentation" :=
  chart_precedes_keywords
    { text_content := [⟨"title", "Pipeline"⟩, ⟨"body", "our process"⟩, ⟨"body", "data"⟩],
      has_chart := true }
    (by decide) (Or.inl rfl) (Or.inl (by decide))

/-! ### C3 -/

/-- C3: with no chart/table, more than 2 `TextItem`s, exactly 5 body-typed
items, a text containing `"contact"` and none of the earlier-rule
keywords, the classifier answers `"closing"` — the keyword rule fires
before the `>4`-body-items count rule — and the `"closing"` layout entry
is centered, title centered, 1 column, high emphasis. -/
theorem closing_keyword_precedes_count (sd : SlideData)
    (hchart : sd.has_chart = false) (htable : sd.has_table = false)
    (hlen : 2 < sd.text_content.length)
    (hbody : (sd.text_content.filter (fun t => t.type = "body")).length = 5)
    (hcontact : pyContains (pyLower (pyJoin " " (sd.text_content.map (·.text)))) "contact"
      = true)
    (hnone : ∀ w ∈ (["step", "process", "phase", "stage", "compare", "versus", "vs",
        "difference", "timeline", "history", "roadmap", "question", "?", "faq"] : List String),
      pyContains (pyLower (pyJoin " " (sd.text_content.map (·.text)))) w = false) :
    analyzeContentType sd = "closing" ∧
    ∀ element_count : Nat,
      (getLayoutRecommendation "closing" element_count).type = "centered" ∧
      (getLayoutRecommendation "closing" element_count).title_position = "center" ∧
      (getLayoutRecommendation "closing" element_count).columns = some (.num 1) ∧
      (getLayoutRecommendation "closing" element_count).emphasis = some "high" := by
  refine ⟨?_, fun _ => ⟨rfl, rfl, rfl, rfl⟩⟩
  have hs := hnone "step" (by simp)
  have hp := hnone "process" (by simp)
  have hph := hnone "phase" (by simp)
  have hst := hnone "stage" (by simp)
  have hc := hnone "compare" (by simp)
  have hv := hnone "versus" (by simp)
  have hvs := hnone "vs" (by simp)
  have hd := hnone "difference" (by simp)
  have ht := hnone "timeline" (by simp)
  have hh := hnone "history" (by simp)
  have hr := hnone "roadmap" (by simp)
  have hq := hnone "question" (by simp)
  have hqm := hnone "?" (by simp)
  have hf := hnone "faq" (by simp)
  dsimp only [analyzeContentType]
  rw [if_neg, if_neg, if_neg]
  · simp [List.any_cons, List.any_nil, hs, hp, hph, hst, hc, hv, hvs, hd, ht, hh, hr,
      hq, hqm, hf, hcontact]
  · simp [hchart, htable]
  · rintro ⟨hle, _⟩
    omega
  · intro hemp
    rw [List.isEmpty_iff] at hemp
    rw [hemp] at hlen
    simp at hlen

/-- Witness for C3: five body items, one of which mentions contact
details. -/
theorem closing_keyword_precedes_count_witness :
    analyzeContentType closingSlideFixture = "closing" ∧
    ∀ element_count : Nat,
      (getLayoutRecommendation "closing" element_count).type = "centered" ∧
      (getLayoutRecommendation "closing" element_count).title_position = "center" ∧
      (getLayoutRecommendation "closing" element_count).columns = some (.num 1) ∧
      (getLayoutRecommendation "closing" element_count).emphasis = some "high" :=
  closing_keyword_precedes_count closingSlideFixture rfl rfl (by decide) (by decide)
    (by decide) (by decide)

/-! ### C10 -/

/-- At index 0 the dispatch always picks the hero title slide. -/
theorem chooseSlideLayout_first (sd : ExportSlide) (count : Nat) :
    chooseSlideLayout sd 0 count = .heroTitle := by
  dsimp only [chooseSlideLayout]
  rw [if_pos rfl]

/-- For more than 2 slides the dispatch always picks the closing slide at
the last index. -/
theorem chooseSlideLayout_last (sd : ExportSlide) (count : Nat) (h : 2 < count) :
    chooseSlideLayout sd (count - 1) count = .closingSlide := by
  dsimp only [chooseSlideLayout]
  rw [if_neg (by omega), if_pos ⟨rfl, h⟩]

/-- C10: the exporter picks each slide's rendered layout from its index,
the deck length and the extracted body texts, never from the classified
`layout_type`: index 0 is always the hero title slide; with more than 2
slides the last index is always the closing slide; and changing only
`layout_type` never changes the dispatch. Stated both for the dispatch
function and for the export loop (`head?`/`getLast?` of the per-slide
choices). -/
theorem exporter_layout_position_based :
    (∀ (sd : ExportSlide) (count : Nat), chooseSlideLayout sd 0 count = .heroTitle) ∧
    (∀ (sd : ExportSlide) (count : Nat), 2 < count →
      chooseSlideLayout sd (count - 1) count = .closingSlide) ∧
    (∀ (lt1 lt2 : String) (oc : List ContentItem) (i c : Nat),
      chooseSlideLayout { layout_type := lt1, original_content := oc } i c =
        chooseSlideLayout { layout_type := lt2, original_content := oc } i c) ∧
    (∀ slides_data : List ExportSlide, slides_data ≠ [] →
      (exportLayouts slides_data).head? = some .heroTitle) ∧
    (∀ slides_data : List ExportSlide, 2 < slides_data.length →
      (exportLayouts slides_data).getLast? = some .closingSlide) := by
  refine ⟨chooseSlideLayout_first, chooseSlideLayout_last, fun _ _ _ _ _ => rfl, ?_, ?_⟩
  · intro sds hne
    match sds with
    | a :: rest =>
      rw [exportLayouts, List.enum_cons]
      simp only [List.map_cons, List.head?_cons]
      rw [chooseSlideLayout_first]
  · intro sds hlen
    have hlt : sds.length - 1 < sds.length := by omega
    rw [exportLayouts, List.getLast?_eq_getElem?, List.getElem?_map, List.getElem?_enum,
      List.length_map, List.enum_length, List.getElem?_eq_getElem hlt]
    simp only [Option.map_some']
    rw [chooseSlideLayout_last _ _ hlen]

/-- Witness for C10: a 4-slide deck whose first slide is labelled
`"closing"` and whose last is labelled `"title_slide"` still renders hero
first, closing last. -/
theorem exporter_layout_position_based_witness :
    chooseSlideLayout
      { layout_type := "closing", original_content := [.obj (some "title") "Intro"] }
      0 4 = .heroTitle ∧
    chooseSlideLayout
      { layout_type := "title_slide", original_content := [.str "bye"] }
      3 4 = .closingSlide ∧
    (exportLayouts [{ layout_type := "closing" }, { layout_type := "a" },
      { layout_type := "b" }, { layout_type := "title_slide" }]).head? = some .heroTitle ∧
    (exportLayouts [{ layout_type := "closing" }, { layout_type := "a" },
      { layout_type := "b" }, { layout_type := "title_slide" }]).getLast? =
      some .closingSlide :=
  ⟨exporter_layout_position_based.1 _ 4,
   exporter_layout_position_based.2.1 _ 4 (by decide),
   exporter_layout_position_based.2.2.2.1 _ (by decide),
   exporter_layout_position_based.2.2.2.2 _ (by decide)⟩

/-! ### C1 -/

/-- The enumerate loop of `_parse_slides` stamps consecutive slide numbers
starting at `idx + 1`. -/
theorem parseSortedSlides_number (d : SlidesDir) :
    ∀ (lst : List (Nat × String)) (idx : Nat) (res : List SlideData),
      parseSortedSlides d lst idx = .ok res →
      ∀ i (h : i < res.length), (res.get ⟨i, h⟩).slide_number = idx + i + 1 := by
  intro lst
  induction lst with
  | nil =>
    intro idx res h i hi
    simp only [parseSortedSlides] at h
    cases h
    simp at hi
  | cons p rest ih =>
    intro idx res h i hi
    obtain ⟨n, filename⟩ := p
    simp only [parseSortedSlides] at h
    cases hc : parseSingleSlide (d.content filename) with
    | error e => rw [hc] at h; cases h
    | ok sd =>
      rw [hc] at h
      cases hr : parseSortedSlides d rest (idx + 1) with
      | error e => rw [hr] at h; cases h
      | ok tail =>
        rw [hr] at h
        cases h
        cases i with
        | zero => simp
        | succ j =>
          have hj : j < tail.length := by
            simpa using hi
          have := ih (idx + 1) tail hr j hj
          simpa [Nat.add_assoc, Nat.add_comm, Nat.add_left_comm] using this

/-- C1: slide parts are ordered by the integer index embedded in the
filename (the selected `(index, filename)` pairs are sorted by the numeric
key), every parsed deck satisfies `slides[i].slide_number = i + 1`, and a
directory listing parts 3, 1, 2 parses into contents 1, 2, 3. -/
theorem slides_sorted_numerically :
    (∀ (dir : Option SlidesDir) (res : List SlideData), parseSlides dir = .ok res →
      ∀ i (h : i < res.length), (res.get ⟨i, h⟩).slide_number = i + 1) ∧
    (∀ listing : List String, List.Sorted slideKeyLE (sortedSlideFiles listing)) ∧
    ((parseSlides (some shuffledDir)).toOption.map
        (fun l => (l.map (·.filename), l.map (·.slide_number),
          l.map (fun s => s.text_content.map (·.text)))) =
      some (["slide1.xml", "slide2.xml", "slide3.xml"], [1, 2, 3],
        [["one"], ["two"], ["three"]])) := by
  refine ⟨?_, ?_, by decide⟩
  · intro dir res h i hi
    match dir with
    | none =>
      simp only [parseSlides] at h
      cases h
      simp at hi
    | some d =>
      have := parseSortedSlides_number d (sortedSlideFiles d.listing) 0 res h i hi
      simpa using this
  · intro listing
    exact List.sorted_insertionSort slideKeyLE (slideFiles listing)

/-- Witness for C1: the one-part directory parses to a single slide with
`slide_number = 1`. -/
theorem slides_sorted_numerically_witness :
    ([helloParsedSlide].get ⟨0, by decide⟩).slide_number = 1 :=
  slides_sorted_numerically.1 (some singleGoodDir) [helloParsedSlide] rfl 0
    (by decide)

/-! ### C7 -/

/-- Appending anything to a non-empty string stays non-empty. -/
theorem append_ne_empty (s t : String) (h : s ≠ "") : s ++ t ≠ "" := by
  cases s with
  | mk d =>
    cases t with
    | mk e =>
      intro he
      have hde : d ++ e = [] := congrArg String.data he
      have hd : d = [] := by
        cases d
        · rfl
        · simp at hde
      exact h (congrArg String.mk hd)

/-- Every `TextItem` a shape contributes has non-empty text: title-like
shapes pass the shape-level truthiness guard, body-like shapes only emit
non-empty stripped paragraphs. -/
theorem shapeTextItems_text_ne_empty (sd : ShapeData) :
    ∀ item ∈ shapeTextItems sd, item.text ≠ "" := by
  intro item hm
  dsimp only [shapeTextItems] at hm
  by_cases ht : (sd.text != "") = true
  · rw [if_pos ht] at hm
    split at hm
    · simp only [List.mem_singleton] at hm
      subst hm
      simpa using ht
    · rw [List.mem_filterMap] at hm
      obtain ⟨a, _, hfa⟩ := hm
      by_cases hp : (pyStrip a != "") = true
      · rw [if_pos hp] at hfa
        cases hfa
        simpa using hp
      · rw [if_neg hp] at hfa
        cases hfa
  · rw [if_neg ht] at hm
    simp at hm

/-- No slide's `text_content` ever holds an empty-string item. -/
theorem parseSingleSlideData_text_ne_empty (x : SlideXML) :
    ∀ item ∈ (parseSingleSlideData x).text_content, item.text ≠ "" := by
  intro item hm
  dsimp only [parseSingleSlideData] at hm
  split at hm
  · simp at hm
  · simp only [List.mem_flatten] at hm
    obtain ⟨l, hl, hil⟩ := hm
    simp only [List.mem_map] at hl
    obtain ⟨sdp, _, rfl⟩ := hl
    exact shapeTextItems_text_ne_empty sdp item hil

/-- C7: a body-role shape whose text body is a non-empty paragraph, an
empty paragraph, then a non-empty paragraph yields exactly 2 `TextItem`s,
one per non-empty paragraph in order — the blank line neither merges them
nor produces an item — and, for any shape of any slide, no empty-string
`TextItem` is ever emitted. -/
theorem body_paragraph_split (p1 p2 p3 : ParagraphXML)
    (h1 : pyStrip (extractParagraphText p1) ≠ "")
    (h2 : extractParagraphText p2 = "")
    (h3 : pyStrip (extractParagraphText p3) ≠ "") :
    (parseSingleSlideData
        { shapes := [{ ph := some (some "body"), txBody := some [p1, p2, p3] }] }).text_content
      = [⟨"body", pyStrip (extractParagraphText p1)⟩,
         ⟨"body", pyStrip (extractParagraphText p3)⟩] ∧
    (∀ (x : SlideXML) (item : TextItem),
      item ∈ (parseSingleSlideData x).text_content → item.text ≠ "") := by
  refine ⟨?_, fun x item hm => parseSingleSlideData_text_ne_empty x item hm⟩
  have he1 : extractParagraphText p1 ≠ "" := fun h => h1 (by rw [h]; decide)
  have hb1 : (extractParagraphText p1 != "") = true := bne_iff_ne.mpr he1
  have he3 : extractParagraphText p3 ≠ "" := fun h => h3 (by rw [h]; decide)
  have hb3 : (extractParagraphText p3 != "") = true := bne_iff_ne.mpr he3
  have hs1 : (pyStrip (extractParagraphText p1) != "") = true := bne_iff_ne.mpr h1
  have hs3 : (pyStrip (extractParagraphText p3) != "") = true := bne_iff_ne.mpr h3
  have htext : ((extractParagraphText p1 ++ "\n" ++ extractParagraphText p3) != "") = true :=
    bne_iff_ne.mpr (append_ne_empty _ _ (append_ne_empty _ _ he1))
  have hbody : (("body" : String) != "") = true := by decide
  have hno : ¬(("body" : String) = "title" ∨ ("body" : String) = "ctrTitle" ∨
      ("body" : String) = "subTitle") := by decide
  simp only [parseSingleSlideData, parseShape, shapeTextItems, List.filterMap_cons,
    List.filterMap_nil, List.filter_cons, List.filter_nil, List.map_cons, List.map_nil,
    h2, hb1, hb3, hs1, hs3, htext, hbody, hno, pyJoin, Option.map_some', Option.getD_some,
    Bool.true_or, Bool.not_true, Bool.false_eq_true, bne_self_eq_false, if_true, if_false,
    ite_true, ite_false, List.flatten_cons, List.flatten_nil, List.append_nil]

/-- Witness for C7: the paragraphs `"First line"`, empty, `"Second"`. -/
theorem body_paragraph_split_witness :
    (parseSingleSlideData
        { shapes := [{ ph := some (some "body"),
                       txBody := some [{ runTexts := ["First", "line"] }, {},
                         { directTexts := ["Second"] }] }] }).text_content
      = [⟨"body", "First line"⟩, ⟨"body", "Second"⟩] :=
  (body_paragraph_split { runTexts := ["First", "line"] } {} { directTexts := ["Second"] }
    (by decide) (by decide) (by decide)).1

/-! ### C6 -/

/-- The slide-number-artifact test of the exporter: digit-only and at most
3 characters. -/
def isDigitArtifact (x : String) : Prop := pyIsdigit x = true ∧ x.length ≤ 3

/-- C6 counterexample: a parsed slide whose text box holds only `"12"`
carries `⟨"body", "12"⟩` in the very `text_content` the classifier
consumes, and that artifact flips the classification (5 body items →
`"detailed_content"`) relative to the same slide without it
(`"standard_content"`): the parser does not exclude digit-only short
strings from design decisions. -/
theorem digit_artifact_reaches_classifier :
    (⟨"body", "12"⟩ : TextItem) ∈ (parseSingleSlideData digitSlideXml).text_content ∧
    pyIsdigit "12" = true ∧ "12".length ≤ 3 ∧
    analyzeContentType (parseSingleSlideData digitSlideXml) = "detailed_content" ∧
    analyzeContentType (parseSingleSlideData noDigitSlideXml) = "standard_content" := by
  refine ⟨by decide, by decide, by decide, by decide, by decide⟩

/-- The exporter's extraction loop never lets a digit artifact into any of
its accumulators. -/
theorem extractContentLoop_no_digit_artifact :
    ∀ (items : List ContentItem) (t s : String) (b : List String),
      ¬ isDigitArtifact t → ¬ isDigitArtifact s → (∀ x ∈ b, ¬ isDigitArtifact x) →
      ¬ isDigitArtifact (extractContentLoop items t s b).title ∧
      ¬ isDigitArtifact (extractContentLoop items t s b).subtitle ∧
      ∀ x ∈ (extractContentLoop items t s b).body_texts, ¬ isDigitArtifact x := by
  intro items
  induction items with
  | nil => intro t s b ht hs hb; exact ⟨ht, hs, hb⟩
  | cons item rest ih =>
    intro t s b ht hs hb
    cases item with
    | str s0 =>
      dsimp only [extractContentLoop]
      split_ifs with h1 h2 h3 h4
      · exact ih t s b ht hs hb
      · exact ih t s b ht hs hb
      · exact ih (pyStrip s0) s b h2 hs hb
      · exact ih t (pyStrip s0) b ht h2 hb
      · refine ih t s (b ++ [pyStrip s0]) ht hs ?_
        intro x hx
        rcases List.mem_append.mp hx with hx | hx
        · exact hb x hx
        · rw [List.mem_singleton] at hx
          subst hx
          exact h2
    | obj ty tx =>
      dsimp only [extractContentLoop]
      split_ifs with h1 h2 h3 h4
      · exact ih t s b ht hs hb
      · exact ih t s b ht hs hb
      · exact ih (pyStrip tx) s b h2 hs hb
      · exact ih t (pyStrip tx) b ht h2 hb
      · refine ih t s (b ++ [pyStrip tx]) ht hs ?_
        intro x hx
        rcases List.mem_append.mp hx with hx | hx
        · exact hb x hx
        · rw [List.mem_singleton] at hx
          subst hx
          exact h2

/-- `_extract_content` output (after the title-promotion fixup) never
holds a digit artifact. -/
theorem extractContent_no_digit_artifact (oc : List ContentItem) :
    ¬ isDigitArtifact (extractContent oc).title ∧
    ¬ isDigitArtifact (extractContent oc).subtitle ∧
    ∀ x ∈ (extractContent oc).body_texts, ¬ isDigitArtifact x := by
  have h0 : ¬ isDigitArtifact "" := by
    rintro ⟨h, -⟩
    simp [pyIsdigit] at h
  obtain ⟨ht, hs, hb⟩ :=
    extractContentLoop_no_digit_artifact oc "" "" [] h0 h0 (by simp)
  dsimp only [extractContent]
  split_ifs with hc
  · obtain ⟨-, hne⟩ := hc
    cases hbt : (extractContentLoop oc "" "" []).body_texts with
    | nil => exact absurd hbt hne
    | cons b bs =>
      rw [hbt] at hb
      refine ⟨hb b (List.mem_cons_self b bs), hs, ?_⟩
      intro x hx
      exact hb x (List.mem_cons_of_mem b hx)
  · exact ⟨ht, hs, hb⟩

/-- C6 amended: digit-only strings of at most 3 characters are excluded by
the binary exporter's content extraction (none survives into its title,
subtitle or body texts), but they are not excluded from the parser's
`text_content`, which is exactly what content classification and
layout/typography selection consume: the `"12"` artifact reaches the
classifier. -/
theorem digit_artifacts_filtered_only_in_exporter :
    (∀ oc : List ContentItem,
      ¬ isDigitArtifact (extractContent oc).title ∧
      ¬ isDigitArtifact (extractContent oc).subtitle ∧
      ∀ x ∈ (extractContent oc).body_texts, ¬ isDigitArtifact x) ∧
    ((⟨"body", "12"⟩ : TextItem) ∈ (parseSingleSlideData digitSlideXml).text_content ∧
      analyzeContentType (parseSingleSlideData digitSlideXml) = "detailed_content") :=
  ⟨extractContent_no_digit_artifact, by decide, by decide⟩

/-- Witness for C6 (amended): a concrete body text survives extraction and
is no digit artifact. -/
theorem digit_artifacts_filtered_only_in_exporter_witness :
    ¬ isDigitArtifact "hello" :=
  (digit_artifacts_filtered_only_in_exporter.1
    [.obj (some "title") "Welcome", .obj none "hello"]).2.2 "hello" (by decide)

/-! ### C8 -/

/-- If any selected slide part's content is malformed, the enumerate loop
of `_parse_slides` ends in the XML parse error. -/
theorem parseSortedSlides_error_of_bad (d : SlidesDir) :
    ∀ (lst : List (Nat × String)) (idx : Nat),
      (∃ p ∈ lst, d.content p.2 = none) →
      parseSortedSlides d lst idx = .error .xmlParseError := by
  intro lst
  induction lst with
  | nil =>
    intro idx h
    obtain ⟨p, hp, _⟩ := h
    simp at hp
  | cons q rest ih =>
    intro idx h
    obtain ⟨n, f⟩ := q
    dsimp only [parseSortedSlides]
    cases hc : d.content f with
    | none => rfl
    | some x =>
      obtain ⟨p, hp, hbad⟩ := h
      rcases List.mem_cons.mp hp with rfl | hrest
      · rw [hc] at hbad
        cases hbad
      · rw [ih (idx + 1) ⟨p, hrest, hbad⟩]
        rfl

/-- C8 amended: a slide part that fails to parse as XML makes the whole
`_parse_slides` (and hence `parse`) fail with that error — the loop has no
per-slide recovery, so no partial deck of the remaining slides is
returned. -/
theorem corrupt_slide_aborts_whole_parse (d : SlidesDir) (f : String)
    (hmem : f ∈ d.listing)
    (hpre : "slide".data.isPrefixOf f.data = true)
    (hsuf : ".xml".data.isSuffixOf f.data = true)
    (hnum : ∃ n, searchSlideNum f.data = some n)
    (hbad : d.content f = none) :
    parseSlides (some d) = .error .xmlParseError := by
  obtain ⟨n, hn⟩ := hnum
  have hsel : (n, f) ∈ slideFiles d.listing := by
    rw [slideFiles, List.mem_filterMap]
    refine ⟨f, hmem, ?_⟩
    simp [hpre, hsuf, hn]
  have hsorted : (n, f) ∈ sortedSlideFiles d.listing :=
    (List.Perm.mem_iff (List.perm_insertionSort slideKeyLE _)).mpr hsel
  show parseSortedSlides d (sortedSlideFiles d.listing) 0 = .error .xmlParseError
  exact parseSortedSlides_error_of_bad d _ 0 ⟨(n, f), hsorted, hbad⟩

/-- C8 counterexample: with part 2 of 3 malformed, `_parse_slides` (and
`parse`) return the XML error — not a 2-slide partial deck. -/
theorem corrupt_slide_aborts_concrete :
    parseSlides (some corruptDir) = .error .xmlParseError ∧
    parse { isZip := true, presentationXml := none, slidesDir := some corruptDir }
      = .error .xmlParseError :=
  ⟨rfl, rfl⟩

/-- Witness for C8 (amended): a directory whose single matching part is
malformed. -/
theorem corrupt_slide_aborts_whole_parse_witness :
    parseSlides (some { listing := ["slide7.xml"], content := fun _ => none })
      = .error .xmlParseError :=
  corrupt_slide_aborts_whole_parse { listing := ["slide7.xml"], content := fun _ => none }
    "slide7.xml" (by decide) (by decide) (by decide) ⟨7, by decide⟩ rfl

/-! ### C9 -/

/-- C9 counterexample: an openable archive with one slide part but no
`ppt/presentation.xml` parses successfully — empty metadata, one slide —
instead of failing with a malformed-document error. -/
theorem missing_manifest_not_fatal :
    (parse noManifestArchive).toOption.map (fun r => (r.metadata, r.slides.length))
      = some ({}, 1) := by
  decide

/-- C9 amended: an archive that is not a valid zip container fails with
the `BadZipFile` error; but an archive that merely lacks
`ppt/presentation.xml` does not fail for that reason — parsing proceeds
with empty metadata and returns whatever the slide parts give. -/
theorem archive_error_semantics :
    (∀ a : Archive, a.isZip = false → parse a = .error .badZip) ∧
    (∀ a : Archive, a.isZip = true → a.presentationXml = none →
      parse a =
        match parseSlides a.slidesDir with
        | .error e => .error e
        | .ok slides =>
          .ok { metadata := {}, slides := slides, slide_count := slides.length }) := by
  constructor
  · intro a h
    simp [parse, h]
  · intro a hz hp
    simp [parse, hz, hp, parsePresentationMetadata]

/-- Witness for C9 (amended): a non-zip upload errors; the manifest-less
archive parses to a one-slide deck with empty metadata. -/
theorem archive_error_semantics_witness :
    parse { isZip := false } = .error .badZip ∧
    parse noManifestArchive
      = .ok { metadata := {}, slides := [helloParsedSlide], slide_count := 1 } :=
  ⟨archive_error_semantics.1 { isZip := false } rfl,
   archive_error_semantics.2 noManifestArchive rfl rfl⟩

end SlideStyler
